import Mathlib

/-!
Shallow embedding of `src/storm.py` (HTTP Storm, a concurrent HTTP
load-generation tool).

The mutable statistics dictionary of `HTTPStorm` becomes a `Stats` record;
each recording branch of `make_request` (thread dispatch) and `async_worker`
(cooperative dispatch) becomes a pure state-update function on `Stats`.
Randomness (header draws, payload choice, delays, network latency) is made
explicit as parameters, so every theorem quantifies over all outcomes of the
random draws.  Wall-clock time is modelled by an explicit rational clock that
each `time.sleep` / network exchange advances.  Python dictionaries become
association lists with Python's assignment/update/lookup semantics.
-/

namespace Storm

/-- HTTP method; the CLI restricts `--method` to GET or POST
(`choices=['GET', 'POST']`, storm.py line 443). -/
inductive Method where
  | GET
  | POST
deriving DecidableEq, Repr

/-- `self.stats`, the statistics dictionary initialised in
`HTTPStorm.__init__` (storm.py lines 40-52).  `status_codes` and `errors`
are the per-status-code and per-error-kind buckets (association lists
standing for Python dicts); the source keys `status_codes` by
`str(response.status_code)`, modelled here by the numeric code itself
(`toString` on `Nat` is injective, so the counts coincide).
`start_time` and `rps_history` belong to the reporter, kept out of the
per-record state since no record branch touches them. -/
structure Stats where
  total_requests : Nat
  successful : Nat
  failed : Nat
  timeouts : Nat
  status_codes : List (Nat × Nat)
  response_times : List ℚ
  errors : List (String × Nat)
  bytes_sent : Nat
  bytes_received : Nat
deriving DecidableEq, Repr

/-- The all-zero initial statistics (storm.py lines 40-52). -/
def initStats : Stats :=
  { total_requests := 0, successful := 0, failed := 0, timeouts := 0
    status_codes := [], response_times := [], errors := []
    bytes_sent := 0, bytes_received := 0 }

/-- Python `d[k] = d.get(k, 0) + 1` on a dict modelled as an association
list: bump the existing entry, or append a fresh one mapped to 1. -/
def bump {α : Type} [DecidableEq α] (m : List (α × Nat)) (k : α) : List (α × Nat) :=
  match m with
  | [] => [(k, 1)]
  | (k₀, v₀) :: t => if k₀ = k then (k₀, v₀ + 1) :: t else (k₀, v₀) :: bump t k

/-- Python `d.get(k, 0)` on the same dict model. -/
def bucket {α : Type} [DecidableEq α] (m : List (α × Nat)) (k : α) : Nat :=
  match m with
  | [] => 0
  | (k₀, v₀) :: t => if k₀ = k then v₀ else bucket t k

/-- Python truthiness of the selected payload (`if payload:` at storm.py
line 136): `None` and the empty string are falsy.  Payloads are modelled as
their textual form. -/
def payloadTruthy : Option String → Bool
  | none => false
  | some s => !(s == "")

/-- `len(str(payload))` (storm.py line 137).  For a string payload this is
its length; `str(None)` would be `"None"` of length 4, but that case is
unreachable because the increment is guarded by truthiness. -/
def payloadStrLen : Option String → Nat
  | none => 4
  | some s => s.length

/-- `HTTPStorm.get_random_payload` (storm.py lines 90-94):
`None` when the payload list is empty, otherwise `random.choice`, modelled
by an arbitrary draw index reduced modulo the list length. -/
def get_random_payload (payloads : List String) (draw : Nat) : Option String :=
  if payloads.isEmpty then none
  else payloads[draw % payloads.length]?

/-- Outcome of one thread-mode attempt, matching the three recording
branches of `HTTPStorm.make_request` (storm.py lines 132-166): a received
HTTP response, a `requests.exceptions.Timeout`, or any other exception
identified by its class name (`type(e).__name__`). -/
inductive ThreadOutcome where
  | response (status : Nat) (contentLen : Nat) (rtime : ℚ)
  | timeout
  | failure (errorType : String)
deriving DecidableEq, Repr

/-- The response-received stats update of `make_request`
(storm.py lines 132-145): bump the attempt count, append the measured
time, add the response size, add `len(str(payload))` to `bytes_sent`
whenever the selected payload is truthy (the method is not consulted),
classify by `status < 400`, and bump the status bucket. -/
def recordThreadResponse (st : Stats) (payload : Option String)
    (status contentLen : Nat) (rtime : ℚ) : Stats :=
  { st with
    total_requests := st.total_requests + 1
    response_times := st.response_times ++ [rtime]
    bytes_received := st.bytes_received + contentLen
    bytes_sent :=
      if payloadTruthy payload then st.bytes_sent + payloadStrLen payload
      else st.bytes_sent
    successful := if status < 400 then st.successful + 1 else st.successful
    failed := if status < 400 then st.failed else st.failed + 1
    status_codes := bump st.status_codes status }

/-- The `requests.exceptions.Timeout` handler of `make_request`
(storm.py lines 153-158). -/
def recordThreadTimeout (st : Stats) : Stats :=
  { st with
    total_requests := st.total_requests + 1
    timeouts := st.timeouts + 1
    failed := st.failed + 1 }

/-- The generic `except Exception` handler of `make_request`
(storm.py lines 160-166). -/
def recordThreadError (st : Stats) (errorType : String) : Stats :=
  { st with
    total_requests := st.total_requests + 1
    failed := st.failed + 1
    errors := bump st.errors errorType }

/-- The complete stats update of one completed `make_request` call. -/
def recordThread (st : Stats) (payload : Option String) : ThreadOutcome → Stats
  | .response s c r => recordThreadResponse st payload s c r
  | .timeout => recordThreadTimeout st
  | .failure e => recordThreadError st e

/-- Outcome of one cooperative-mode attempt, matching the two recording
branches of `HTTPStorm.async_worker` (storm.py lines 198-230): there is no
dedicated timeout branch — every exception, a raised
`asyncio.TimeoutError` included, falls into the generic `except Exception`
handler and is identified only by its class name. -/
inductive AsyncOutcome where
  | response (status : Nat) (contentLen : Nat) (rtime : ℚ)
  | failure (errorType : String)
deriving DecidableEq, Repr

/-- The response-received stats update of `async_worker`
(storm.py lines 212-223): like the thread path but with no payload and no
`bytes_sent` update. -/
def recordAsyncResponse (st : Stats) (status contentLen : Nat) (rtime : ℚ) : Stats :=
  { st with
    total_requests := st.total_requests + 1
    response_times := st.response_times ++ [rtime]
    bytes_received := st.bytes_received + contentLen
    successful := if status < 400 then st.successful + 1 else st.successful
    failed := if status < 400 then st.failed else st.failed + 1
    status_codes := bump st.status_codes status }

/-- The `except Exception` handler of `async_worker`
(storm.py lines 225-230). -/
def recordAsyncError (st : Stats) (errorType : String) : Stats :=
  { st with
    total_requests := st.total_requests + 1
    failed := st.failed + 1
    errors := bump st.errors errorType }

/-- The complete stats update of one completed `async_worker` call. -/
def recordAsync (st : Stats) : AsyncOutcome → Stats
  | .response s c r => recordAsyncResponse st s c r
  | .failure e => recordAsyncError st e

/-- One completed record operation, in either dispatch mode. -/
inductive RecordOp where
  | thread (payload : Option String) (o : ThreadOutcome)
  | async (o : AsyncOutcome)
deriving DecidableEq, Repr

/-- Apply one completed record operation to the shared stats.  Every stats
update in the source runs under `self.lock`, so a run is a serialisation of
its completed record operations. -/
def applyOp (st : Stats) : RecordOp → Stats
  | .thread p o => recordThread st p o
  | .async o => recordAsync st o

/-- The stats after a serialised sequence of completed record operations,
starting from the all-zero dictionary. -/
def runOps (ops : List RecordOp) : Stats := ops.foldl applyOp initStats

/-- Whether a record operation is the thread-mode timeout branch — the
only branch in the whole source that touches `stats['timeouts']`
(storm.py line 156). -/
def isThreadTimeoutOp : RecordOp → Bool
  | .thread _ .timeout => true
  | _ => false

/-! ## Header construction (`HTTPStorm.get_random_headers`, lines 57-88) -/

/-- A Python dict of header names to values, as an association list whose
keys are unique (Python dicts cannot hold a key twice). -/
abbrev Headers := List (String × String)

/-- Python dict assignment `d[k] = v`: overwrite the entry in place when
the key is present, append it otherwise. -/
def hset (hs : Headers) (k v : String) : Headers :=
  match hs with
  | [] => [(k, v)]
  | (k₀, v₀) :: t => if k₀ = k then (k, v) :: t else (k₀, v₀) :: hset t k v

/-- Python dict lookup `d.get(k)`: `none` when the key is absent. -/
def hget (hs : Headers) (k : String) : Option String :=
  match hs with
  | [] => none
  | (k₀, v₀) :: t => if k₀ = k then some v₀ else hget t k

/-- Python `d.update(other)`: assign each entry of `other` into `d`,
in order. -/
def hupdate (hs upd : Headers) : Headers :=
  upd.foldl (fun acc kv => hset acc kv.1 kv.2) hs

/-- The fixed `Accept` options (storm.py lines 61-65). -/
def acceptOptions : List String :=
  ["text/html,application/xhtml+xml,application/xml;q=0.9,*/*;q=0.8",
   "application/json,text/plain,*/*",
   "*/*"]

/-- The fixed `Accept-Language` options (storm.py lines 66-69). -/
def langOptions : List String :=
  ["en-US,en;q=0.9", "es-ES,es;q=0.9", "fr-FR,fr;q=0.9",
   "de-DE,de;q=0.9", "zh-CN,zh;q=0.9"]

/-- The fixed `Connection` options (storm.py line 71). -/
def connOptions : List String := ["keep-alive", "close"]

/-- The fixed `Cache-Control` options (storm.py line 72). -/
def cacheOptions : List String := ["no-cache", "max-age=0", "no-store"]

/-- `random.choice(xs)` with the draw made explicit as an index reduced
modulo the list length (`random.choice` on an empty list raises; the fixed
option lists are never empty). -/
def choice (xs : List String) (i : Nat) : String := xs.getD (i % xs.length) ""

/-- One joint outcome of every random draw `get_random_headers` can make:
the five `random.choice` indices for the baseline headers, and for each
stealth header whether its `random.random() < p` draw hit, together with
the four `random.randint(1,255)` octets of each spoofed address. -/
structure HeaderDraws where
  uaIdx : Nat
  acceptIdx : Nat
  langIdx : Nat
  connIdx : Nat
  cacheIdx : Nat
  xffHit : Bool
  xffOctets : Nat × Nat × Nat × Nat
  xriHit : Bool
  xriOctets : Nat × Nat × Nat × Nat
  dntHit : Bool
deriving DecidableEq, Repr

/-- The f-string `f"{a}.{b}.{c}.{d}"` building a spoofed address
(storm.py lines 82 and 84). -/
def ipString (o : Nat × Nat × Nat × Nat) : String :=
  toString o.1 ++ "." ++ toString o.2.1 ++ "." ++ toString o.2.2.1 ++ "." ++
    toString o.2.2.2

/-- `HTTPStorm.get_random_headers` (storm.py lines 57-88): build the
randomized baseline dict, then `update` it with the operator-supplied
custom headers when that dict is non-empty (`if self.headers:`), and only
afterwards — when stealth is on and the respective draw hit — assign the
`X-Forwarded-For`, `X-Real-IP` and `DNT` entries. -/
def get_random_headers (user_agents : List String) (custom : Headers)
    (stealth : Bool) (d : HeaderDraws) : Headers :=
  let base : Headers :=
    [("User-Agent", choice user_agents d.uaIdx),
     ("Accept", choice acceptOptions d.acceptIdx),
     ("Accept-Language", choice langOptions d.langIdx),
     ("Accept-Encoding", "gzip, deflate, br"),
     ("Connection", choice connOptions d.connIdx),
     ("Cache-Control", choice cacheOptions d.cacheIdx)]
  let withCustom := if custom.isEmpty then base else hupdate base custom
  let s1 :=
    if stealth && d.xffHit then hset withCustom "X-Forwarded-For" (ipString d.xffOctets)
    else withCustom
  let s2 :=
    if stealth && d.xriHit then hset s1 "X-Real-IP" (ipString d.xriOctets)
    else s1
  if stealth && d.dntHit then hset s2 "DNT" "1" else s2

/-! ## Wall-clock timing of one attempt -/

/-- A wall clock read by `time.time()`, advanced by sleeps and by the
network exchange. -/
structure Clock where
  now : ℚ
deriving DecidableEq, Repr

/-- Advance the wall clock by a duration (a `time.sleep`, an
`asyncio.sleep`, or the time the network exchange takes). -/
def tick (c : Clock) (d : ℚ) : Clock := ⟨c.now + d⟩

/-- The measured response time of one `make_request` attempt
(storm.py lines 106-130): the optional pre-send random delay is slept
first (lines 107-108), `start_time` is read only afterwards (line 110),
the exchange runs (lines 112-128), and `response_time` is the clock minus
`start_time` (line 130).  Returns the recorded time and the advanced
clock; `delay` is the value `random.uniform(0.01, 0.5)` drew and `net`
the duration of the network exchange. -/
def makeRequestMeasured (c : Clock) (random_delay : Bool) (delay net : ℚ) :
    ℚ × Clock :=
  let c₁ := if random_delay then tick c delay else c
  let start := c₁.now
  let c₂ := tick c₁ net
  (c₂.now - start, c₂)

/-- The measured response time of one `async_worker` attempt
(storm.py lines 202-210): `start_time` is read first (line 203), the
optional pre-send delay is awaited afterwards (lines 205-206), then the
exchange runs and `response_time` is the clock minus `start_time`
(line 210). -/
def asyncWorkerMeasured (c : Clock) (random_delay : Bool) (delay net : ℚ) :
    ℚ × Clock :=
  let start := c.now
  let c₁ := if random_delay then tick c delay else c
  let c₂ := tick c₁ net
  (c₂.now - start, c₂)

/-! ## Request construction -/

/-- What one attempt actually puts on the wire, apart from the target URL,
headers and timeout: the method used, the body transmitted, the proxy
routed through, and the per-request TLS-verify argument (`none` when the
call passes no such argument at all). -/
structure RequestSpec where
  method : Method
  body : Option String
  proxy : Option String
  verify : Option Bool
deriving DecidableEq, Repr

/-- The body argument of the POST branch (storm.py line 124):
`data=payload if isinstance(payload, str) else json.dumps(payload)`.
Payloads are modelled textually, so a selected payload is passed through;
`json.dumps(None)` is the text `null`. -/
def postBody : Option String → String
  | some s => s
  | none => "null"

/-- The request issued by `make_request` (storm.py lines 112-128): the
configured method dispatches to `session.get` (no body) or `session.post`
(with the encoded payload); both pass the drawn proxy and the configured
`verify` flag. -/
def threadRequestSpec (method : Method) (payload : Option String)
    (proxy : Option String) (verify_ssl : Bool) : RequestSpec :=
  match method with
  | .GET => { method := .GET, body := none, proxy := proxy, verify := some verify_ssl }
  | .POST =>
    { method := .POST, body := some (postBody payload), proxy := proxy
      verify := some verify_ssl }

/-- The request issued by `async_worker` (storm.py line 208):
`session.get(self.url, headers=headers, timeout=self.timeout)` — always a
GET, with no body, no proxy and no per-request verify argument, whatever
the configuration holds (the parameters are listed to record exactly which
configuration the call ignores). -/
def asyncRequestSpec (_method : Method) (_payload : Option String)
    (_proxy : Option String) (_verify_ssl : Bool) : RequestSpec :=
  { method := .GET, body := none, proxy := none, verify := none }

/-- The success path of one `make_request` call (storm.py lines 101-151):
the request put on the wire and the stats update its response triggers,
for one drawn payload. -/
def make_request_success (st : Stats) (method : Method)
    (payload : Option String) (proxy : Option String) (verify_ssl : Bool)
    (status contentLen : Nat) (rtime : ℚ) : RequestSpec × Stats :=
  (threadRequestSpec method payload proxy verify_ssl,
   recordThreadResponse st payload status contentLen rtime)

/-! ## Run control (`worker_thread`, `async_storm`, `start_storm`) -/

/-- The two branches of `start_storm` (storm.py lines 339-382): the
request-limited branch is taken exactly when `self.requests > 0`
(line 340), the duration-limited branch otherwise (line 357). -/
inductive StormMode where
  | requestLimited
  | durationLimited
deriving DecidableEq, Repr

/-- The branch `start_storm` selects, from the configured request ceiling
(storm.py line 340). -/
def stormMode (requestsCfg : Nat) : StormMode :=
  if 0 < requestsCfg then .requestLimited else .durationLimited

/-- Whether the selected branch installs any duration-based stop: the
request-limited branch (storm.py lines 340-356) has neither the async
`stop_storm` timer (lines 360-365) nor the thread-mode
`time.sleep(self.duration)` (line 378) — those exist only in the
duration-limited branch (lines 357-382). -/
def durationTimerInstalled : StormMode → Bool
  | .requestLimited => false
  | .durationLimited => true

/-- The per-iteration break check shared by `worker_thread`
(storm.py lines 185-186) and `async_storm` (lines 248-249):
`self.requests > 0 and self.stats['total_requests'] >= self.requests`.
The duration is not an input. -/
def workerShouldBreak (requestsCfg total : Nat) : Bool :=
  decide (0 < requestsCfg) && decide (requestsCfg ≤ total)

/-- The `worker_thread` issue loop (storm.py lines 184-196) in
request-limited mode, serialised: each iteration checks the break
condition against the shared total, then issues one request whose
completed record raises the total by one (`running` stays true in this
mode until every worker has broken out, storm.py line 356).  `fuel` bounds
the number of iterations unfolded; the result is the shared total when the
loop breaks. -/
def threadLoopSteps (requestsCfg : Nat) : Nat → Nat → Nat
  | 0, total => total
  | fuel + 1, total =>
    if workerShouldBreak requestsCfg total then total
    else threadLoopSteps requestsCfg fuel (total + 1)

/-! ## Final report (`print_final_report`, lines 390-422) -/

/-- `statistics.mean`: the exact rational mean (Python's `statistics`
module is exact on exact inputs). -/
def meanQ (xs : List ℚ) : ℚ := xs.foldl (· + ·) 0 / xs.length

/-- Insert into a sorted list, for `statistics.median`'s sorting step. -/
def insertLe (x : ℚ) : List ℚ → List ℚ
  | [] => [x]
  | y :: t => if x ≤ y then x :: y :: t else y :: insertLe x t

/-- Sort ascending (insertion sort). -/
def sortQ : List ℚ → List ℚ
  | [] => []
  | x :: t => insertLe x (sortQ t)

/-- `statistics.median`: the middle of the sorted data, or the mean of the
two middle values when the count is even. -/
def medianQ (xs : List ℚ) : ℚ :=
  let s := sortQ xs
  let n := s.length
  if n % 2 = 1 then s.getD (n / 2) 0
  else (s.getD (n / 2 - 1) 0 + s.getD (n / 2) 0) / 2

/-- What `print_final_report` prints: either the bare
`"No requests completed"` message, or the full summary block with its six
computed figures. -/
inductive FinalReport where
  | empty
  | report (elapsed avg_rps success_rate avg_response median_response
      total_data_mb : ℚ)
deriving DecidableEq, Repr

/-- `HTTPStorm.print_final_report` (storm.py lines 390-422): when
`total_requests` is zero it prints the no-requests message and returns at
once (lines 393-395), before any of the divisions below; otherwise it
computes the success rate (`successful / total * 100`), the average RPS
(`total / elapsed` guarded by `elapsed > 0`), the mean and median response
times (zero when no samples), and the transferred megabytes. -/
def print_final_report (st : Stats) (elapsed : ℚ) : FinalReport :=
  if st.total_requests = 0 then .empty
  else
    let total : ℚ := st.total_requests
    let success_rate := ((st.successful : ℚ) / total) * 100
    let avg_rps := if 0 < elapsed then total / elapsed else 0
    let avg_response :=
      if st.response_times.isEmpty then 0 else meanQ st.response_times
    let median_response :=
      if st.response_times.isEmpty then 0 else medianQ st.response_times
    let total_data := ((st.bytes_sent : ℚ) + (st.bytes_received : ℚ)) / 1024 / 1024
    .report elapsed avg_rps success_rate avg_response median_response total_data

/-! ## Configuration (`HTTPStorm.__init__`, lines 23-37, and `main`,
lines 436-494) -/

/-- The configuration mapping handed to `HTTPStorm(config)`, with the keys
`__init__` reads through `config.get(...)` — and which may therefore be
absent — modelled as `Option` fields (storm.py lines 26 and 34-37); the
remaining keys are read by plain indexing and must be present. -/
structure ConfigDict where
  url : String
  duration : Nat
  requests : Option Nat
  threads : Nat
  rps : Nat
  method : Method
  headers : Headers
  payloads : List String
  user_agents : List String
  proxies : List String
  stealth : Option Bool
  random_delay : Option Bool
  verify_ssl : Option Bool
  timeout : Option ℚ
deriving DecidableEq, Repr

/-- The per-run fields `__init__` stores on the instance. -/
structure StormState where
  url : String
  duration : Nat
  requestsCfg : Nat
  threads : Nat
  rps : Nat
  method : Method
  headers : Headers
  payloads : List String
  user_agents : List String
  proxies : List String
  stealth : Bool
  random_delay : Bool
  verify_ssl : Bool
  timeout : ℚ
deriving DecidableEq, Repr

/-- `HTTPStorm.__init__` (storm.py lines 23-37).  The `.get` defaults are
those of the source: `requests` 0, `stealth` and `random_delay` false,
`timeout` 10 — and `verify_ssl` defaults to `False` (line 36), so a
mapping without that key yields a run that does not verify certificates. -/
def HTTPStorm_init (cfg : ConfigDict) : StormState :=
  { url := cfg.url
    duration := cfg.duration
    requestsCfg := cfg.requests.getD 0
    threads := cfg.threads
    rps := cfg.rps
    method := cfg.method
    headers := cfg.headers
    payloads := cfg.payloads
    user_agents := cfg.user_agents
    proxies := cfg.proxies
    stealth := cfg.stealth.getD false
    random_delay := cfg.random_delay.getD false
    verify_ssl := cfg.verify_ssl.getD false
    timeout := cfg.timeout.getD 10 }

/-- The `verify_ssl` entry `main` always places in the configuration it
builds (storm.py line 481): `not args.no_ssl_verify`, where
`--no-ssl-verify` is a `store_true` flag defaulting to false
(line 449). -/
def mainVerifySslEntry (no_ssl_verify : Bool) : Option Bool :=
  some (!no_ssl_verify)

/-! ## Concrete inputs used to instantiate the theorems -/

/-- A draw outcome in which every stealth Bernoulli draw hit. -/
def allHitDraws : HeaderDraws :=
  { uaIdx := 0, acceptIdx := 0, langIdx := 0, connIdx := 0, cacheIdx := 0
    xffHit := true, xffOctets := (1, 2, 3, 4)
    xriHit := true, xriOctets := (5, 6, 7, 8)
    dntHit := true }

/-- A configuration mapping from which the `verify_ssl` key is absent. -/
def cfgNoVerify : ConfigDict :=
  { url := "http://example.com"
    duration := 10
    requests := none
    threads := 1
    rps := 0
    method := .GET
    headers := []
    payloads := []
    user_agents := []
    proxies := []
    stealth := none
    random_delay := none
    verify_ssl := none
    timeout := none }

/-! ## Helper lemmas -/

/-- Every completed record operation, in either dispatch mode, bumps the
attempt counter by exactly one. -/
theorem applyOp_total (st : Stats) (op : RecordOp) :
    (applyOp st op).total_requests = st.total_requests + 1 := by
  cases op with
  | thread p o => cases o <;> rfl
  | async o => cases o <;> rfl

/-- Every completed record operation bumps exactly one of the success and
failure counters, so their sum grows by exactly one. -/
theorem applyOp_succ_failed (st : Stats) (op : RecordOp) :
    (applyOp st op).successful + (applyOp st op).failed =
      st.successful + st.failed + 1 := by
  cases op with
  | thread p o =>
    cases o with
    | response s c r =>
      by_cases h : s < 400 <;>
        simp [applyOp, recordThread, recordThreadResponse, h] <;> omega
    | timeout => simp [applyOp, recordThread, recordThreadTimeout]; omega
    | failure e => simp [applyOp, recordThread, recordThreadError]; omega
  | async o =>
    cases o with
    | response s c r =>
      by_cases h : s < 400 <;>
        simp [applyOp, recordAsync, recordAsyncResponse, h] <;> omega
    | failure e => simp [applyOp, recordAsync, recordAsyncError]; omega

/-- Folding a sequence of record operations grows the attempt counter by
the sequence length and the success-plus-failure sum by the same amount. -/
theorem foldOps_counts : ∀ (ops : List RecordOp) (st : Stats),
    (ops.foldl applyOp st).total_requests = st.total_requests + ops.length ∧
    (ops.foldl applyOp st).successful + (ops.foldl applyOp st).failed =
      st.successful + st.failed + ops.length := by
  intro ops
  induction ops with
  | nil => intro st; simp
  | cons op t ih =>
    intro st
    obtain ⟨h1, h2⟩ := ih (applyOp st op)
    refine ⟨?_, ?_⟩
    · simp only [List.foldl_cons, List.length_cons]
      rw [h1, applyOp_total]
      omega
    · simp only [List.foldl_cons, List.length_cons]
      rw [h2, applyOp_succ_failed]
      omega

/-- Bumping a bucket raises the bumped key's count by one. -/
theorem bucket_bump {α : Type} [DecidableEq α] (m : List (α × Nat)) (k : α) :
    bucket (bump m k) k = bucket m k + 1 := by
  induction m with
  | nil => simp [bump, bucket]
  | cons kv t ih =>
    obtain ⟨k₀, v₀⟩ := kv
    by_cases h : k₀ = k <;> simp [bump, bucket, h, ih]

/-- Dict assignment makes the assigned key map to the assigned value. -/
theorem hget_hset_self (hs : Headers) (k v : String) :
    hget (hset hs k v) k = some v := by
  induction hs with
  | nil => simp [hset, hget]
  | cons kv t ih =>
    obtain ⟨k₀, v₀⟩ := kv
    by_cases h : k₀ = k <;> simp [hset, hget, h, ih]

/-- Dict assignment leaves every other key's value unchanged. -/
theorem hget_hset_ne (hs : Headers) (k k₁ v : String) (h : k₁ ≠ k) :
    hget (hset hs k₁ v) k = hget hs k := by
  induction hs with
  | nil => simp [hset, hget, h]
  | cons kv t ih =>
    obtain ⟨k₀, v₀⟩ := kv
    by_cases h₀ : k₀ = k₁
    · subst h₀
      simp [hset, hget, h]
    · simp only [hset, if_neg h₀]
      by_cases hk : k₀ = k
      · simp [hget, hk]
      · simp [hget, hk, ih]

/-- `hupdate` over a cons is an assignment followed by the rest of the
update. -/
theorem hupdate_cons (b : Headers) (kv : String × String) (t : Headers) :
    hupdate b (kv :: t) = hupdate (hset b kv.1 kv.2) t := rfl

/-- A dict update none of whose keys is `k` leaves `k`'s value unchanged. -/
theorem hget_hupdate_not_mem : ∀ (upd b : Headers) (k : String),
    (∀ kv ∈ upd, kv.1 ≠ k) → hget (hupdate b upd) k = hget b k := by
  intro upd
  induction upd with
  | nil => intro b k _; rfl
  | cons kv t ih =>
    intro b k h
    rw [hupdate_cons, ih _ _ fun kv₁ hm => h kv₁ (List.mem_cons_of_mem _ hm)]
    exact hget_hset_ne _ _ _ _ (h kv (List.mem_cons_self _ _))

/-- After a dict update with a duplicate-free dict, every key of the
update maps to the update's value. -/
theorem hget_hupdate_mem : ∀ (upd b : Headers) (k v : String),
    (upd.map Prod.fst).Nodup → hget upd k = some v →
    hget (hupdate b upd) k = some v := by
  intro upd
  induction upd with
  | nil => intro b k v _ hl; simp [hget] at hl
  | cons kv t ih =>
    intro b k v hnd hl
    obtain ⟨k₀, v₀⟩ := kv
    rw [hupdate_cons]
    have hnd₁ : k₀ ∉ t.map Prod.fst ∧ (t.map Prod.fst).Nodup := by
      simpa [List.nodup_cons] using hnd
    by_cases hk : k₀ = k
    · subst hk
      have hv : v₀ = v := by simpa [hget] using hl
      have hnm : ∀ kv₁ ∈ t, kv₁.1 ≠ k₀ := by
        intro kv₁ hm he
        exact hnd₁.1 (he ▸ List.mem_map_of_mem Prod.fst hm)
      rw [hget_hupdate_not_mem t _ k₀ hnm, hget_hset_self, hv]
    · have hl₁ : hget t k = some v := by simpa [hget, hk] using hl
      exact ih _ k v hnd₁.2 hl₁

/-- A conditional stealth assignment whose key is not `k` (or whose draw
missed) leaves `k`'s value unchanged. -/
theorem hget_stealth_layer (hs : Headers) (k key val : String) (cond : Bool)
    (h : cond = true → k ≠ key) :
    hget (if cond then hset hs key val else hs) k = hget hs k := by
  cases cond with
  | false => rfl
  | true =>
    simp only [if_pos]
    exact hget_hset_ne _ _ _ _ fun he => h rfl he.symm

/-- The worker loop, started strictly below a positive ceiling with enough
iterations available, stops with the shared total exactly at the
ceiling. -/
theorem threadLoopSteps_reaches : ∀ (fuel total req : Nat), 0 < req →
    total ≤ req → req - total ≤ fuel → threadLoopSteps req fuel total = req := by
  intro fuel
  induction fuel with
  | zero =>
    intro total req h1 h2 h3
    have ht : total = req := by omega
    simp [threadLoopSteps, ht]
  | succ n ih =>
    intro total req h1 h2 h3
    by_cases hb : workerShouldBreak req total = true
    · have hle : req ≤ total := by
        simp [workerShouldBreak] at hb
        omega
      have ht : total = req := by omega
      simp only [threadLoopSteps]
      rw [if_pos hb, ht]
    · have hlt : total < req := by
        simp [workerShouldBreak, h1] at hb
        omega
      simp only [threadLoopSteps, if_neg hb]
      exact ih (total + 1) req h1 (by omega) (by omega)

/-! ## Claim theorems -/

/-- Claim C1: for every serialised sequence of completed record
operations (`make_request` or `async_worker` calls that ran their stats
update to completion), the aggregator's `total_requests` equals the number
of completed operations, and `successful + failed` equals
`total_requests` exactly: every completed operation bumps
`total_requests` by exactly one and exactly one of `successful` or
`failed` by exactly one. -/
theorem claim_C1 (ops : List RecordOp) :
    (runOps ops).total_requests = ops.length ∧
    (runOps ops).successful + (runOps ops).failed =
      (runOps ops).total_requests := by
  obtain ⟨h1, h2⟩ := foldOps_counts ops initStats
  unfold runOps
  refine ⟨?_, ?_⟩
  · rw [h1]; simp [initStats]
  · rw [h2, h1]; simp [initStats]

/-- Claim C2, counterexample: an attempt that raises a timeout under
cooperative dispatch is caught by `async_worker`'s generic
`except Exception` handler (storm.py lines 225-230; `asyncio.TimeoutError`
is an `Exception`, and there is no dedicated timeout branch), so its
recording bumps `failed` and the `TimeoutError` error bucket but leaves
the `timeouts` counter at zero — the claim says every timeout-raising
attempt increments `timeouts` by one. -/
theorem claim_C2_counterexample :
    (recordAsync initStats (AsyncOutcome.failure "TimeoutError")).timeouts =
      initStats.timeouts ∧
    (recordAsync initStats (AsyncOutcome.failure "TimeoutError")).failed = 1 ∧
    bucket (recordAsync initStats
      (AsyncOutcome.failure "TimeoutError")).errors "TimeoutError" = 1 := by
  refine ⟨rfl, rfl, by decide⟩

/-- Claim C2, amended: under thread dispatch (`make_request`), a raised
timeout increments `timeouts` and `failed` by one and leaves `successful`
unchanged; and no record operation other than that thread-mode timeout
branch increments the `timeouts` counter — under cooperative dispatch a
raised timeout is recorded as a generic failure (error-kind bucket) and
leaves `timeouts` unchanged. -/
theorem claim_C2_amended (st : Stats) (payload : Option String)
    (op : RecordOp) (e : String) :
    (recordThread st payload ThreadOutcome.timeout).timeouts =
      st.timeouts + 1 ∧
    (recordThread st payload ThreadOutcome.timeout).failed = st.failed + 1 ∧
    (recordThread st payload ThreadOutcome.timeout).successful =
      st.successful ∧
    (applyOp st op).timeouts =
      st.timeouts + (if isThreadTimeoutOp op then 1 else 0) ∧
    (recordAsync st (AsyncOutcome.failure e)).timeouts = st.timeouts := by
  refine ⟨rfl, rfl, rfl, ?_, rfl⟩
  cases op with
  | thread p o => cases o <;> rfl
  | async o => cases o <;> rfl

/-- Claim C3, counterexample: with the random-delay option enabled, a
pre-send delay of 1 and a network exchange of 2 time units, the thread
issuer records 2 but the async issuer records 3 — `async_worker` reads
`start_time` (storm.py line 203) before awaiting the pre-send delay
(line 206), so the delay is included in the recorded response time,
against the claim that it never is in either dispatch mode. -/
theorem claim_C3_counterexample :
    (makeRequestMeasured ⟨0⟩ true 1 2).1 = 2 ∧
    (asyncWorkerMeasured ⟨0⟩ true 1 2).1 = 3 ∧
    (asyncWorkerMeasured ⟨0⟩ true 1 2).1 ≠ 2 := by
  refine ⟨?_, ?_, ?_⟩ <;>
    norm_num [makeRequestMeasured, asyncWorkerMeasured, tick]

/-- Claim C3, amended: with the random-delay option enabled, the thread
issuer (`make_request`) records exactly the network-exchange time, the
pre-send delay excluded; the async issuer (`async_worker`) records the
pre-send delay plus the network-exchange time, the delay included. -/
theorem claim_C3_amended (c : Clock) (delay net : ℚ) :
    (makeRequestMeasured c true delay net).1 = net ∧
    (asyncWorkerMeasured c true delay net).1 = delay + net := by
  refine ⟨?_, ?_⟩ <;>
    · simp [makeRequestMeasured, asyncWorkerMeasured, tick]
      try ring

/-- Claim C4, counterexample: with payload list `["abc"]` (non-empty) the
issuer draws the payload `"abc"`; a GET request then carries no body
(storm.py lines 112-119), yet the success-path recording still bumps
`bytes_sent` by `len(str(payload))` = 3, because the guard at line 136 is
`if payload:` and never consults the method — against the claim that a
GET never increases `bytes_sent`. -/
theorem claim_C4_counterexample :
    get_random_payload ["abc"] 0 = some "abc" ∧
    (make_request_success initStats Method.GET (some "abc") none true
      200 0 1).1.body = none ∧
    (make_request_success initStats Method.GET (some "abc") none true
      200 0 1).2.bytes_sent = 3 := by
  refine ⟨by decide, rfl, rfl⟩

/-- Claim C4, amended: on the success path of `make_request`,
`bytes_sent` grows by `len(str(payload))` exactly when the drawn payload
is truthy, regardless of the method and of whether a body was actually
transmitted; in particular a GET carries no body yet still increases
`bytes_sent` whenever a truthy payload was drawn. -/
theorem claim_C4_amended (st : Stats) (method : Method)
    (payload : Option String) (proxy : Option String) (v : Bool)
    (status len : Nat) (rt : ℚ) :
    (make_request_success st method payload proxy v status len
        rt).2.bytes_sent =
      st.bytes_sent +
        (if payloadTruthy payload then payloadStrLen payload else 0) ∧
    (make_request_success st Method.GET payload proxy v status len
        rt).1.body = none := by
  refine ⟨?_, rfl⟩
  cases hp : payloadTruthy payload <;>
    simp [make_request_success, recordThreadResponse, hp]

/-- Claim C5, counterexample: with custom headers `[("DNT", "0")]`,
stealth enabled, and a draw outcome in which every stealth Bernoulli draw
hit, the final header dict maps `DNT` to the stealth value `"1"`, not to
the operator-supplied `"0"` — the stealth assignments run after the
custom-header update (storm.py lines 76-86), against the claim that
custom headers win every collision for every draw outcome. -/
theorem claim_C5_counterexample :
    hget [("DNT", "0")] "DNT" = some "0" ∧
    hget (get_random_headers ["ua"] [("DNT", "0")] true allHitDraws) "DNT" =
      some "1" := by
  refine ⟨by decide, by decide⟩

/-- Claim C5, amended: the operator-supplied custom headers take
precedence over the randomized baseline on every key collision; the
probabilistic stealth headers, however, are assigned after the custom
update, so a custom value survives into the final dict only when no
stealth assignment to its key fires — for every key whose stealth draw
does not fire (or that is none of `X-Forwarded-For`, `X-Real-IP`, `DNT`,
or when stealth is off), the final dict maps it to the operator-supplied
value. -/
theorem claim_C5_amended (ua : List String) (custom : Headers)
    (stealth : Bool) (d : HeaderDraws) (k v : String)
    (hnd : (custom.map Prod.fst).Nodup)
    (hl : hget custom k = some v)
    (hxff : stealth = true → d.xffHit = true → k ≠ "X-Forwarded-For")
    (hxri : stealth = true → d.xriHit = true → k ≠ "X-Real-IP")
    (hdnt : stealth = true → d.dntHit = true → k ≠ "DNT") :
    hget (get_random_headers ua custom stealth d) k = some v := by
  have hne : custom.isEmpty = false := by
    cases custom with
    | nil => simp [hget] at hl
    | cons kv t => rfl
  unfold get_random_headers
  rw [hget_stealth_layer _ _ _ _ _ fun hc =>
      hdnt (Bool.and_eq_true .. ▸ hc).1 (Bool.and_eq_true .. ▸ hc).2,
    hget_stealth_layer _ _ _ _ _ fun hc =>
      hxri (Bool.and_eq_true .. ▸ hc).1 (Bool.and_eq_true .. ▸ hc).2,
    hget_stealth_layer _ _ _ _ _ fun hc =>
      hxff (Bool.and_eq_true .. ▸ hc).1 (Bool.and_eq_true .. ▸ hc).2,
    hne]
  simp only [Bool.false_eq_true, if_false]
  exact hget_hupdate_mem custom _ k v hnd hl

/-- Claim C5, witness: a custom header on a non-stealth key survives into
the final dict even when stealth is on and every stealth draw hit. -/
theorem claim_C5_witness :
    hget (get_random_headers ["ua"] [("X-Api-Key", "secret")] true
      allHitDraws) "X-Api-Key" = some "secret" :=
  claim_C5_amended ["ua"] [("X-Api-Key", "secret")] true allHitDraws
    "X-Api-Key" "secret" (by decide) (by decide)
    (fun _ _ => by decide) (fun _ _ => by decide) (fun _ _ => by decide)

/-- Claim C6: in both dispatch modes, a received HTTP response is
recorded as successful exactly when its status code is strictly below
400 and as failed otherwise, and in either case the bucket for that
status code grows by one. -/
theorem claim_C6 (st : Stats) (payload : Option String)
    (status len : Nat) (rt : ℚ) :
    (recordThreadResponse st payload status len rt).successful =
      st.successful + (if status < 400 then 1 else 0) ∧
    (recordThreadResponse st payload status len rt).failed =
      st.failed + (if status < 400 then 0 else 1) ∧
    bucket (recordThreadResponse st payload status len rt).status_codes
        status = bucket st.status_codes status + 1 ∧
    (recordAsyncResponse st status len rt).successful =
      st.successful + (if status < 400 then 1 else 0) ∧
    (recordAsyncResponse st status len rt).failed =
      st.failed + (if status < 400 then 0 else 1) ∧
    bucket (recordAsyncResponse st status len rt).status_codes status =
      bucket st.status_codes status + 1 := by
  by_cases h : status < 400 <;>
    simp [recordThreadResponse, recordAsyncResponse, h, bucket_bump]

/-- Claim C7: with a nonzero request ceiling configured, `start_storm`
takes the request-limited branch, which installs no duration timer
(neither the async `stop_storm` timer nor the thread-mode
`time.sleep(duration)` exists in that branch), and the worker issue loop
stops exactly when the shared attempt total reaches the ceiling — the
duration limit plays no part in the stop decision. -/
theorem claim_C7 (req fuel : Nat) (h : 0 < req) :
    stormMode req = StormMode.requestLimited ∧
    durationTimerInstalled (stormMode req) = false ∧
    (req ≤ fuel → threadLoopSteps req fuel 0 = req) := by
  have hm : stormMode req = StormMode.requestLimited := by
    simp [stormMode, h]
  exact ⟨hm, by rw [hm]; rfl, fun hf =>
    threadLoopSteps_reaches fuel 0 req h (by omega) (by omega)⟩

/-- Claim C7, witness: with a ceiling of 3 and 5 iterations available,
the request-limited branch is selected, no duration timer is installed,
and the loop stops with the total exactly at 3. -/
theorem claim_C7_witness :
    0 < 3 ∧ stormMode 3 = StormMode.requestLimited ∧
    durationTimerInstalled (stormMode 3) = false ∧
    threadLoopSteps 3 5 0 = 3 := by
  have h := claim_C7 3 5 (by decide)
  exact ⟨by decide, h.1, h.2.1, h.2.2 (by decide)⟩

/-- Claim C8: when `total_requests` is zero, `print_final_report` emits
the no-requests-completed message and returns at once — the empty report
carries none of the numeric sections, so no division by the attempt count
is performed. -/
theorem claim_C8 (st : Stats) (elapsed : ℚ)
    (h : st.total_requests = 0) :
    print_final_report st elapsed = FinalReport.empty := by
  simp [print_final_report, h]

/-- Claim C8, witness: a zero-attempt run ends with the empty report. -/
theorem claim_C8_witness :
    initStats.total_requests = 0 ∧
    print_final_report initStats 5 = FinalReport.empty :=
  ⟨rfl, claim_C8 initStats 5 rfl⟩

/-- Claim C9, counterexample: a configuration mapping from which the
`verify_ssl` key is absent yields a run with `verify_ssl = False`
(`config.get('verify_ssl', False)`, storm.py line 36) — TLS certificate
verification is off, against the claim that the flag defaults to on. -/
theorem claim_C9_counterexample :
    cfgNoVerify.verify_ssl = none ∧
    (HTTPStorm_init cfgNoVerify).verify_ssl = false :=
  ⟨rfl, rfl⟩

/-- Claim C9, amended: when the `verify_ssl` key is absent from the
configuration mapping, `HTTPStorm.__init__` defaults TLS verification to
off; the CLI entry point, however, always supplies the key, set to the
negation of the `--no-ssl-verify` flag, so a run built by `main` verifies
certificates unless the operator passes that flag. -/
theorem claim_C9_amended (cfg : ConfigDict) (b : Bool) :
    (cfg.verify_ssl = none → (HTTPStorm_init cfg).verify_ssl = false) ∧
    (HTTPStorm_init
      { cfg with verify_ssl := mainVerifySslEntry b }).verify_ssl = !b := by
  refine ⟨fun h => ?_, rfl⟩
  simp [HTTPStorm_init, h]

/-- Claim C9, witness: the absent-key default is off, and the CLI default
(no `--no-ssl-verify`) turns verification on. -/
theorem claim_C9_witness :
    cfgNoVerify.verify_ssl = none ∧
    (HTTPStorm_init cfgNoVerify).verify_ssl = false ∧
    (HTTPStorm_init
      { cfgNoVerify with
          verify_ssl := mainVerifySslEntry false }).verify_ssl = true := by
  have h := claim_C9_amended cfgNoVerify false
  exact ⟨rfl, h.1 rfl, h.2⟩

/-- Claim C10: under cooperative dispatch every attempt is issued as a
GET with no body, no proxy and no per-request TLS-verify argument,
whatever the configured method, payload or proxy, and no cooperative-mode
record operation ever changes `bytes_sent`. -/
theorem claim_C10 :
    (∀ (m : Method) (p proxy : Option String) (v : Bool),
      asyncRequestSpec m p proxy v =
        { method := Method.GET, body := none, proxy := none,
          verify := none }) ∧
    ∀ (st : Stats) (o : AsyncOutcome),
      (recordAsync st o).bytes_sent = st.bytes_sent := by
  refine ⟨fun m p proxy v => rfl, fun st o => ?_⟩
  cases o <;> rfl

end Storm
